import Mathlib

/-!
Verification of the transaction-status provider of the Solana explorer
(`src/explorer/src/providers/transactions/index.tsx`).

The provider is a Redux-style store: a pure `reducer` over a state
holding a map from transaction signature to its status record, tagged
with the cluster `url`, together with an asynchronous orchestration
`fetchTransactionStatus` whose only effect is dispatching actions into
the store.  We embed the reducer directly and model the fetcher as a
function from an environment of external collaborators (fixture cache,
status service, block-time service) to the list of actions it
dispatches.
-/

namespace SolanaExplorer

/-- The `FetchStatus` enum from the source (lines 21-25). -/
inductive FetchStatus
  | Fetching
  | FetchFailed
  | Fetched
deriving DecidableEq, Repr

/-- The type `Confirmations = number | "max"` (line 27). -/
inductive Confirmations
  | count (n : Nat)
  | max
deriving DecidableEq, Repr

/-- The type `Timestamp = number | "unavailable"` (line 29). -/
inductive Timestamp
  | time (t : Int)
  | unavailable
deriving DecidableEq, Repr

/-- The `SignatureResult` type as used by the provider: the fetcher builds
`result: { err: value.err }` (line 260), so we keep just the optional
error, with the error payload itself opaque (a string). -/
structure SignatureResult where
  err : Option String
deriving DecidableEq, Repr

/-- The `TransactionStatusInfo` record (lines 31-36). -/
structure TransactionStatusInfo where
  slot : Nat
  result : SignatureResult
  timestamp : Timestamp
  confirmations : Confirmations
deriving DecidableEq, Repr

/-- The `TransactionStatus` record (lines 38-42).  The optional `info` field is an
`Option`; a JS record without the key and one with the key set to
`undefined` are both `none`. -/
structure TransactionStatus where
  fetchStatus : FetchStatus
  signature : String
  info : Option TransactionStatusInfo
deriving DecidableEq, Repr

/-- The map type `Transactions = \x7b [signature: string]: TransactionStatus \x7d`
(line 44): a JS object keyed by signature, modelled as a partial map. -/
def Transactions : Type := String → Option TransactionStatus

/-- The empty JS object `{}`. -/
def Transactions.empty : Transactions := fun _ => none

/-- The JS spread update `{...m, [k]: v}`: every key other than `k`
keeps its binding, and `k` maps to `v`. -/
def Transactions.set (m : Transactions) (k : String) (v : TransactionStatus) :
    Transactions :=
  fun s => if s = k then some v else m s

/-- Store `State` (lines 45-48). -/
structure State where
  transactions : Transactions
  url : String

/-- The three dispatchable actions (lines 50-75). -/
inductive Action
  | updateStatus (url : String) (signature : String)
      (fetchStatus : FetchStatus) (info : Option TransactionStatusInfo)
  | fetchSignature (url : String) (signature : String)
  | clear (url : String)

/-- The `url` carried by an action (every variant has one). -/
def Action.urlOf : Action → String
  | .updateStatus url _ _ _ => url
  | .fetchSignature url _ => url
  | .clear url => url

/-- Whether an action is a `Clear`. -/
def Action.isClear : Action → Bool
  | .clear _ => true
  | _ => false

/-- The `reducer` (lines 78-128).  `Clear` is handled first and applies
unconditionally; the other two actions are guarded by
`action.url !== state.url`.  `FetchSignature` resets or creates the
record with status `Fetching` and no info; `UpdateStatus` overwrites
`fetchStatus` and `info` of an existing record and is dropped when the
signature has no record. -/
def reducer (state : State) (action : Action) : State :=
  match action with
  | .clear url =>
    { url := url, transactions := Transactions.empty }
  | .fetchSignature url signature =>
    if url ≠ state.url then state
    else
      match state.transactions signature with
      | some transaction =>
        let record := { transaction with fetchStatus := .Fetching, info := none }
        { state with transactions := state.transactions.set signature record }
      | none =>
        let record : TransactionStatus :=
          { signature := signature, fetchStatus := .Fetching, info := none }
        { state with transactions := state.transactions.set signature record }
  | .updateStatus url signature fetchStatus info =>
    if url ≠ state.url then state
    else
      match state.transactions signature with
      | some transaction =>
        let record := { transaction with fetchStatus := fetchStatus, info := info }
        { state with transactions := state.transactions.set signature record }
      | none => state

/-- Folding a sequence of dispatches through the reducer. -/
def applyAll (s : State) (actions : List Action) : State :=
  actions.foldl reducer s

/-- The provider's initial state (lines 138-141): empty map, current
cluster url. -/
def initialState (url : String) : State :=
  { transactions := Transactions.empty, url := url }

/-- The shape of `value` returned by `connection.getSignatureStatus`
(line 230): a slot, a confirmation count that may be absent
(`typeof value.confirmations === "number"` is tested on line 250), and
an optional error. -/
structure SignatureStatusValue where
  slot : Nat
  confirmations : Option Nat
  err : Option String
deriving DecidableEq, Repr

/-- The external collaborators consumed by `fetchTransactionStatus`.
`isCached` and `cachedStatuses` stand for the `isCached` /
`CACHED_STATUSES` pair imported from `./cached` (line 19) — modelled
from the spec: a static, hard-coded cache of fixture entries mapping a
recognized (url, signature) pair to a `TransactionStatusInfo`; its
concrete entries are outside the specified component, so they are kept
abstract here.  `getSignatureStatus` and `getBlockTime` are the two
fallible network services; an `Except.error` models a thrown
exception, and `getBlockTime` may also succeed with `null` (`none`). -/
structure FetchEnv where
  isCached : String → String → Bool
  cachedStatuses : String → Option TransactionStatusInfo
  getSignatureStatus : String → Except Unit (Option SignatureStatusValue)
  getBlockTime : Nat → Except Unit (Option Int)

/-- The resolution step of `fetchTransactionStatus` (lines 222-268):
computes the `fetchStatus` / `info` pair dispatched as the terminal
`UpdateStatus`.  Cached pair: `Fetched` with the cached info.
Otherwise the primary query runs: a thrown error is caught and yields
`FetchFailed` with `info` still undefined; a `null` value yields
`Fetched` with no info; a match builds `info` from the reported slot,
a block time degraded to `"unavailable"` when the secondary query
throws or returns `null`, confirmations passed through when numeric
and `"max"` otherwise, and `result = { err: value.err }`. -/
def resolveTransactionStatus (env : FetchEnv) (signature url : String) :
    FetchStatus × Option TransactionStatusInfo :=
  if env.isCached url signature then
    (.Fetched, env.cachedStatuses signature)
  else
    match env.getSignatureStatus signature with
    | .error _ => (.FetchFailed, none)
    | .ok none => (.Fetched, none)
    | .ok (some value) =>
      let blockTime : Option Int :=
        match env.getBlockTime value.slot with
        | .ok bt => bt
        | .error _ => none
      let timestamp : Timestamp :=
        match blockTime with
        | some t => .time t
        | none => .unavailable
      let confirmations : Confirmations :=
        match value.confirmations with
        | some n => .count n
        | none => .max
      let info : TransactionStatusInfo :=
        { slot := value.slot, timestamp := timestamp,
          confirmations := confirmations, result := { err := value.err } }
      (.Fetched, some info)

/-- The orchestration `fetchTransactionStatus` (lines 211-277).  Its only effects are the
two dispatches: the immediate `FetchSignature` (lines 216-220) and the
terminal `UpdateStatus` with the resolved pair (lines 270-276); we
model it as the list of actions it dispatches, in order. -/
def fetchTransactionStatus (env : FetchEnv) (signature url : String) :
    List Action :=
  let resolved := resolveTransactionStatus env signature url
  [Action.fetchSignature url signature,
   Action.updateStatus url signature resolved.1 resolved.2]

/-- An action the application can actually dispatch: `Clear` on cluster
connect (line 150), or one of the dispatches of
`fetchTransactionStatus` (the only other dispatch sites, lines 186,
205 and 323, all go through it). -/
def ProgramAction (a : Action) : Prop :=
  (∃ url, a = Action.clear url) ∨
  (∃ env signature url, a ∈ fetchTransactionStatus env signature url)

/-- The data-model constraint of the spec: `info` is present only when
`fetchStatus = Fetched`. -/
def InfoOnlyWhenFetched (s : State) : Prop :=
  ∀ k r, s.transactions k = some r → r.fetchStatus ≠ .Fetched → r.info = none

/-- Key coherence: every record's `signature` field equals the map key
under which it is stored. -/
def KeyCoherent (s : State) : Prop :=
  ∀ k r, s.transactions k = some r → r.signature = k

/-- A concrete `TransactionStatusInfo`, used to instantiate theorems on
closed inputs. -/
def sampleInfo : TransactionStatusInfo :=
  { slot := 5, result := { err := none }, timestamp := .time 1000,
    confirmations := .max }

/-- A concrete store state holding one in-flight record. -/
def sampleState : State :=
  { url := "http://a",
    transactions := Transactions.empty.set "SIG1"
      { fetchStatus := .Fetching, signature := "SIG1", info := none } }

/-- A concrete environment whose primary status query throws. -/
def failEnv : FetchEnv :=
  { isCached := fun _ _ => false, cachedStatuses := fun _ => none,
    getSignatureStatus := fun _ => .error (),
    getBlockTime := fun _ => .error () }

/-- A concrete environment whose primary status query reports no match. -/
def notFoundEnv : FetchEnv :=
  { isCached := fun _ _ => false, cachedStatuses := fun _ => none,
    getSignatureStatus := fun _ => .ok none,
    getBlockTime := fun _ => .ok (some 1000) }

/-- A concrete environment reporting a match with no numeric
confirmation count, whose block-time query throws. -/
def matchEnv : FetchEnv :=
  { isCached := fun _ _ => false, cachedStatuses := fun _ => none,
    getSignatureStatus := fun _ =>
      .ok (some { slot := 5, confirmations := none, err := none }),
    getBlockTime := fun _ => .error () }

/-- A concrete environment recognizing every pair as a cached fixture. -/
def cachedEnv : FetchEnv :=
  { isCached := fun _ _ => true,
    cachedStatuses := fun _ => some sampleInfo,
    getSignatureStatus := fun _ => .error (),
    getBlockTime := fun _ => .error () }

/-! ### Basic lemmas about the map and the reducer -/

theorem Transactions.set_self (m : Transactions) (k : String)
    (v : TransactionStatus) : m.set k v k = some v := by
  simp [Transactions.set]

theorem Transactions.set_other (m : Transactions) (k k2 : String)
    (v : TransactionStatus) (h : k2 ≠ k) : m.set k v k2 = m k2 := by
  simp [Transactions.set, h]

theorem reducer_clear (s : State) (u : String) :
    reducer s (Action.clear u) =
      { url := u, transactions := Transactions.empty } := rfl

theorem reducer_mismatch (s : State) (a : Action)
    (h1 : a.urlOf ≠ s.url) (h2 : a.isClear = false) : reducer s a = s := by
  cases a with
  | clear u => simp [Action.isClear] at h2
  | fetchSignature u sig =>
    simp only [Action.urlOf] at h1
    simp [reducer, h1]
  | updateStatus u sig fs i =>
    simp only [Action.urlOf] at h1
    simp [reducer, h1]

theorem reducer_fetch_none (s : State) (u sig : String) (hu : u = s.url)
    (hnone : s.transactions sig = none) :
    reducer s (Action.fetchSignature u sig) =
      { s with transactions := s.transactions.set sig ⟨.Fetching, sig, none⟩ } := by
  subst hu
  simp [reducer, hnone]

theorem reducer_fetch_some (s : State) (u sig : String)
    (t : TransactionStatus) (hu : u = s.url)
    (ht : s.transactions sig = some t) :
    reducer s (Action.fetchSignature u sig) =
      { s with transactions := s.transactions.set sig ⟨.Fetching, t.signature, none⟩ } := by
  subst hu
  simp [reducer, ht]

theorem reducer_update_some (s : State) (u sig : String) (fs : FetchStatus)
    (i : Option TransactionStatusInfo) (t : TransactionStatus)
    (hu : u = s.url) (ht : s.transactions sig = some t) :
    reducer s (Action.updateStatus u sig fs i) =
      { s with transactions := s.transactions.set sig ⟨fs, t.signature, i⟩ } := by
  subst hu
  simp [reducer, ht]

theorem reducer_update_none (s : State) (u sig : String) (fs : FetchStatus)
    (i : Option TransactionStatusInfo)
    (hu : u = s.url) (hnone : s.transactions sig = none) :
    reducer s (Action.updateStatus u sig fs i) = s := by
  subst hu
  simp [reducer, hnone]

/-! ### C1: mismatched-url dispatches are no-ops -/

/-- C1: for every store state and every dispatched action other than
`Clear` whose url differs from the store's current url, the reducer
returns the input state unchanged, and any sequence of such
mismatched-url dispatches leaves the state exactly as it was. -/
theorem mismatched_url_dispatches_are_no_ops (s : State)
    (actions : List Action)
    (h : ∀ a ∈ actions, a.urlOf ≠ s.url ∧ a.isClear = false) :
    (∀ a : Action, a.urlOf ≠ s.url → a.isClear = false →
      reducer s a = s) ∧
    applyAll s actions = s := by
  refine ⟨fun a h1 h2 => reducer_mismatch s a h1 h2, ?_⟩
  induction actions with
  | nil => rfl
  | cons a as ih =>
    have ha := h a (List.mem_cons_self a as)
    have hstep : reducer s a = s := reducer_mismatch s a ha.1 ha.2
    have : applyAll s (a :: as) = applyAll s as := by
      simp [applyAll, hstep]
    rw [this]
    exact ih fun b hb => h b (List.mem_cons_of_mem a hb)

/-- Closed instance of the C1 theorem: two mismatched dispatches
against a store on url `http://a` leave the state unchanged. -/
theorem mismatched_url_dispatches_are_no_ops_witness :
    (∀ a ∈ [Action.fetchSignature "http://b" "SIG1",
            Action.updateStatus "http://b" "SIG1" .Fetched (some sampleInfo)],
        a.urlOf ≠ (initialState "http://a").url ∧ a.isClear = false) ∧
    applyAll (initialState "http://a")
      [Action.fetchSignature "http://b" "SIG1",
       Action.updateStatus "http://b" "SIG1" .Fetched (some sampleInfo)] =
      initialState "http://a" := by
  have h : ∀ a ∈ [Action.fetchSignature "http://b" "SIG1",
      Action.updateStatus "http://b" "SIG1" .Fetched (some sampleInfo)],
      a.urlOf ≠ (initialState "http://a").url ∧ a.isClear = false := by
    intro a ha
    simp only [List.mem_cons, List.not_mem_nil, or_false] at ha
    rcases ha with rfl | rfl
    · exact ⟨by decide, rfl⟩
    · exact ⟨by decide, rfl⟩
  exact ⟨h, (mismatched_url_dispatches_are_no_ops _ _ h).2⟩

/-! ### C3: UpdateStatus on an unknown signature is dropped -/

/-- C3: an `UpdateStatus` with matching url whose signature has no
record returns the input state itself: no record is created and
nothing else is modified — the exact asymmetry with `FetchSignature`,
which does create a record for an unknown signature. -/
theorem updateStatus_unknown_signature_is_no_op (s : State) (sig : String)
    (fs : FetchStatus) (i : Option TransactionStatusInfo)
    (hnone : s.transactions sig = none) :
    reducer s (Action.updateStatus s.url sig fs i) = s ∧
    (reducer s (Action.fetchSignature s.url sig)).transactions sig =
      some ⟨.Fetching, sig, none⟩ := by
  constructor
  · exact reducer_update_none s s.url sig fs i rfl hnone
  · rw [reducer_fetch_none s s.url sig rfl hnone]
    exact Transactions.set_self _ _ _

/-- Closed instance of the C3 theorem at the initial (empty) store. -/
theorem updateStatus_unknown_signature_is_no_op_witness :
    (initialState "http://a").transactions "SIG1" = none ∧
    (reducer (initialState "http://a")
        (Action.updateStatus (initialState "http://a").url "SIG1" .Fetched
          (some sampleInfo)) = initialState "http://a" ∧
     (reducer (initialState "http://a")
        (Action.fetchSignature (initialState "http://a").url "SIG1")).transactions
          "SIG1" = some ⟨.Fetching, "SIG1", none⟩) :=
  ⟨rfl, updateStatus_unknown_signature_is_no_op (initialState "http://a")
    "SIG1" .Fetched (some sampleInfo) rfl⟩

/-! ### C4: FetchSignature with matching url -/

/-- C4: a `FetchSignature` with matching url creates a fresh record
`{signature, fetchStatus: Fetching, info: undefined}` when the
signature is unknown, resets an existing record to `Fetching` with no
info while preserving its `signature` field, and in both cases leaves
every other map entry and the store url untouched. -/
theorem fetchSignature_matching_url (s : State) (u sig : String)
    (hu : u = s.url) :
    (s.transactions sig = none →
      (reducer s (Action.fetchSignature u sig)).transactions sig =
        some ⟨.Fetching, sig, none⟩) ∧
    (∀ t, s.transactions sig = some t →
      (reducer s (Action.fetchSignature u sig)).transactions sig =
        some ⟨.Fetching, t.signature, none⟩) ∧
    (∀ k, k ≠ sig →
      (reducer s (Action.fetchSignature u sig)).transactions k =
        s.transactions k) ∧
    (reducer s (Action.fetchSignature u sig)).url = s.url := by
  refine ⟨?_, ?_, ?_, ?_⟩
  · intro hnone
    rw [reducer_fetch_none s u sig hu hnone]
    exact Transactions.set_self _ _ _
  · intro t ht
    rw [reducer_fetch_some s u sig t hu ht]
    exact Transactions.set_self _ _ _
  · intro k hk
    cases ht : s.transactions sig with
    | none =>
      rw [reducer_fetch_none s u sig hu ht]
      exact Transactions.set_other _ _ _ _ hk
    | some t =>
      rw [reducer_fetch_some s u sig t hu ht]
      exact Transactions.set_other _ _ _ _ hk
  · cases ht : s.transactions sig with
    | none => rw [reducer_fetch_none s u sig hu ht]
    | some t => rw [reducer_fetch_some s u sig t hu ht]

/-- Closed instance of the C4 theorem on a store holding the record
`SIG1`. -/
theorem fetchSignature_matching_url_witness :
    "http://a" = sampleState.url ∧
    ((sampleState.transactions "SIG2" = none →
      (reducer sampleState (Action.fetchSignature "http://a" "SIG2")).transactions
        "SIG2" = some ⟨.Fetching, "SIG2", none⟩) ∧
    (∀ t, sampleState.transactions "SIG2" = some t →
      (reducer sampleState (Action.fetchSignature "http://a" "SIG2")).transactions
        "SIG2" = some ⟨.Fetching, t.signature, none⟩) ∧
    (∀ k, k ≠ "SIG2" →
      (reducer sampleState (Action.fetchSignature "http://a" "SIG2")).transactions
        k = sampleState.transactions k) ∧
    (reducer sampleState (Action.fetchSignature "http://a" "SIG2")).url =
      sampleState.url) :=
  ⟨rfl, fetchSignature_matching_url sampleState "http://a" "SIG2" rfl⟩

/-! ### C5: UpdateStatus with matching url on a known signature -/

/-- C5: an `UpdateStatus` with matching url on an existing record
overwrites exactly `fetchStatus` and `info` (the latter possibly to
`undefined`), keeps the record's `signature` field, and leaves every
other map entry and the store url unchanged. -/
theorem updateStatus_known_signature_overwrites (s : State) (u sig : String)
    (fs : FetchStatus) (i : Option TransactionStatusInfo)
    (t : TransactionStatus) (hu : u = s.url)
    (ht : s.transactions sig = some t) :
    (reducer s (Action.updateStatus u sig fs i)).transactions sig =
      some ⟨fs, t.signature, i⟩ ∧
    (∀ k, k ≠ sig →
      (reducer s (Action.updateStatus u sig fs i)).transactions k =
        s.transactions k) ∧
    (reducer s (Action.updateStatus u sig fs i)).url = s.url := by
  rw [reducer_update_some s u sig fs i t hu ht]
  exact ⟨Transactions.set_self _ _ _,
    fun k hk => Transactions.set_other _ _ _ _ hk, rfl⟩

/-- Closed instance of the C5 theorem: resolving `SIG1` to `Fetched`
with a concrete info. -/
theorem updateStatus_known_signature_overwrites_witness :
    "http://a" = sampleState.url ∧
    sampleState.transactions "SIG1" = some ⟨.Fetching, "SIG1", none⟩ ∧
    ((reducer sampleState
        (Action.updateStatus "http://a" "SIG1" .Fetched (some sampleInfo))).transactions
        "SIG1" = some ⟨.Fetched, "SIG1", some sampleInfo⟩ ∧
    (∀ k, k ≠ "SIG1" →
      (reducer sampleState
        (Action.updateStatus "http://a" "SIG1" .Fetched (some sampleInfo))).transactions
        k = sampleState.transactions k) ∧
    (reducer sampleState
        (Action.updateStatus "http://a" "SIG1" .Fetched (some sampleInfo))).url =
      sampleState.url) :=
  ⟨rfl, rfl, updateStatus_known_signature_overwrites sampleState "http://a"
    "SIG1" .Fetched (some sampleInfo) ⟨.Fetching, "SIG1", none⟩ rfl rfl⟩

/-! ### C10: key coherence is preserved by every action -/

/-- C10: if every record's `signature` field equals its map key, then
after any dispatch (Clear, FetchSignature or UpdateStatus) this still
holds, so a record looked up by signature always carries that very
signature. -/
theorem key_coherence_invariant (s : State) (a : Action)
    (h : KeyCoherent s) : KeyCoherent (reducer s a) := by
  cases a with
  | clear u =>
    intro k r hr
    rw [reducer_clear] at hr
    exact absurd hr (by simp [Transactions.empty])
  | fetchSignature u sig =>
    by_cases hu : u = s.url
    · cases ht : s.transactions sig with
      | none =>
        rw [reducer_fetch_none s u sig hu ht]
        intro k r hr
        simp only [Transactions.set] at hr
        by_cases hk : k = sig
        · rw [if_pos hk] at hr
          injection hr with hv
          rw [← hv]
          exact hk.symm
        · rw [if_neg hk] at hr
          exact h k r hr
      | some t =>
        rw [reducer_fetch_some s u sig t hu ht]
        intro k r hr
        simp only [Transactions.set] at hr
        by_cases hk : k = sig
        · rw [if_pos hk] at hr
          injection hr with hv
          rw [← hv, hk]
          exact h sig t ht
        · rw [if_neg hk] at hr
          exact h k r hr
    · rw [reducer_mismatch s (Action.fetchSignature u sig) hu rfl]
      exact h
  | updateStatus u sig fs i =>
    by_cases hu : u = s.url
    · cases ht : s.transactions sig with
      | none =>
        rw [reducer_update_none s u sig fs i hu ht]
        exact h
      | some t =>
        rw [reducer_update_some s u sig fs i t hu ht]
        intro k r hr
        simp only [Transactions.set] at hr
        by_cases hk : k = sig
        · rw [if_pos hk] at hr
          injection hr with hv
          rw [← hv, hk]
          exact h sig t ht
        · rw [if_neg hk] at hr
          exact h k r hr
    · rw [reducer_mismatch s (Action.updateStatus u sig fs i) hu rfl]
      exact h

/-- Closed instance of the C10 theorem on the one-record sample
state. -/
theorem key_coherence_invariant_witness :
    KeyCoherent sampleState ∧
    KeyCoherent (reducer sampleState
      (Action.updateStatus "http://a" "SIG1" .Fetched (some sampleInfo))) := by
  have h : KeyCoherent sampleState := by
    intro k r hr
    simp only [sampleState, Transactions.set] at hr
    by_cases hk : k = "SIG1"
    · rw [if_pos hk] at hr
      injection hr with hv
      rw [← hv]
      exact hk.symm
    · rw [if_neg hk] at hr
      exact absurd hr (by simp [Transactions.empty])
  exact ⟨h, key_coherence_invariant sampleState _ h⟩

/-! ### C2: info is present only when fetchStatus = Fetched -/

theorem resolve_fetched_or_no_info (env : FetchEnv) (sig url : String) :
    (resolveTransactionStatus env sig url).1 = FetchStatus.Fetched ∨
    (resolveTransactionStatus env sig url).2 = none := by
  unfold resolveTransactionStatus
  cases hc : env.isCached url sig with
  | true => left ; simp [hc]
  | false =>
    cases hgs : env.getSignatureStatus sig with
    | error e => right ; simp [hc, hgs]
    | ok v =>
      cases v with
      | none => left ; simp [hc, hgs]
      | some value => left ; simp [hc, hgs]

theorem fetch_action_mem (env : FetchEnv) (sig url : String) (a : Action)
    (ha : a ∈ fetchTransactionStatus env sig url) :
    a = Action.fetchSignature url sig ∨
    ∃ fs i, a = Action.updateStatus url sig fs i ∧
      (fs = FetchStatus.Fetched ∨ i = none) := by
  simp only [fetchTransactionStatus, List.mem_cons, List.not_mem_nil,
    or_false] at ha
  rcases ha with rfl | rfl
  · left ; rfl
  · right
    exact ⟨_, _, rfl, resolve_fetched_or_no_info env sig url⟩

theorem program_step_preserves_info_inv (s : State) (a : Action)
    (hs : InfoOnlyWhenFetched s) (hp : ProgramAction a) :
    InfoOnlyWhenFetched (reducer s a) := by
  rcases hp with ⟨u, rfl⟩ | ⟨env, sig0, url0, hmem⟩
  · intro k r hr
    rw [reducer_clear] at hr
    exact absurd hr (by simp [Transactions.empty])
  · rcases fetch_action_mem env sig0 url0 a hmem with rfl | ⟨fs, i, rfl, hfi⟩
    · by_cases hu : url0 = s.url
      · cases ht : s.transactions sig0 with
        | none =>
          rw [reducer_fetch_none s url0 sig0 hu ht]
          intro k r hr hfs
          simp only [Transactions.set] at hr
          by_cases hk : k = sig0
          · rw [if_pos hk] at hr
            injection hr with hv
            rw [← hv]
          · rw [if_neg hk] at hr
            exact hs k r hr hfs
        | some t =>
          rw [reducer_fetch_some s url0 sig0 t hu ht]
          intro k r hr hfs
          simp only [Transactions.set] at hr
          by_cases hk : k = sig0
          · rw [if_pos hk] at hr
            injection hr with hv
            rw [← hv]
          · rw [if_neg hk] at hr
            exact hs k r hr hfs
      · rw [reducer_mismatch s (Action.fetchSignature url0 sig0) hu rfl]
        exact hs
    · by_cases hu : url0 = s.url
      · cases ht : s.transactions sig0 with
        | none =>
          rw [reducer_update_none s url0 sig0 fs i hu ht]
          exact hs
        | some t =>
          rw [reducer_update_some s url0 sig0 fs i t hu ht]
          intro k r hr hfs
          simp only [Transactions.set] at hr
          by_cases hk : k = sig0
          · rw [if_pos hk] at hr
            injection hr with hv
            rw [← hv] at hfs ⊢
            rcases hfi with rfl | rfl
            · exact absurd rfl hfs
            · rfl
          · rw [if_neg hk] at hr
            exact hs k r hr hfs
      · rw [reducer_mismatch s (Action.updateStatus url0 sig0 fs i) hu rfl]
        exact hs

theorem applyAll_preserves_info_inv (s : State) (actions : List Action)
    (hs : InfoOnlyWhenFetched s) (h : ∀ a ∈ actions, ProgramAction a) :
    InfoOnlyWhenFetched (applyAll s actions) := by
  induction actions generalizing s with
  | nil => exact hs
  | cons a as ih =>
    have h1 : applyAll s (a :: as) = applyAll (reducer s a) as := rfl
    rw [h1]
    exact ih (reducer s a)
      (program_step_preserves_info_inv s a hs (h a (List.mem_cons_self a as)))
      (fun b hb => h b (List.mem_cons_of_mem a hb))

/-- C2: starting from the initial empty store, after any sequence of
dispatches the application can actually issue (Clear, or the
FetchSignature / UpdateStatus dispatches of `fetchTransactionStatus`),
every record whose `fetchStatus` is not `Fetched` has no `info`. -/
theorem reachable_states_info_only_when_fetched (url : String)
    (actions : List Action) (h : ∀ a ∈ actions, ProgramAction a) :
    InfoOnlyWhenFetched (applyAll (initialState url) actions) := by
  refine applyAll_preserves_info_inv _ _ ?_ h
  intro k r hr
  exact absurd hr (by simp [initialState, Transactions.empty])

/-- Closed instance of the C2 theorem: a Clear followed by a full fetch
round trip whose block-time query throws. -/
theorem reachable_states_info_only_when_fetched_witness :
    (∀ a ∈ Action.clear "http://a" ::
        fetchTransactionStatus matchEnv "SIG1" "http://a", ProgramAction a) ∧
    InfoOnlyWhenFetched (applyAll (initialState "http://a")
      (Action.clear "http://a" ::
        fetchTransactionStatus matchEnv "SIG1" "http://a")) := by
  have h : ∀ a ∈ Action.clear "http://a" ::
      fetchTransactionStatus matchEnv "SIG1" "http://a", ProgramAction a := by
    intro a ha
    rcases List.mem_cons.mp ha with rfl | hmem
    · exact Or.inl ⟨"http://a", rfl⟩
    · exact Or.inr ⟨matchEnv, "SIG1", "http://a", hmem⟩
  exact ⟨h, reachable_states_info_only_when_fetched "http://a" _ h⟩

/-! ### C6: primary query failure -/

/-- C6: for a non-cached signature whose primary status query throws,
the terminal dispatch is `UpdateStatus` with `FetchFailed` and no
info; moreover every run of the fetch orchestration, whatever the
environment does, terminates in exactly the two dispatches — no
failure escapes as an exception. -/
theorem primary_failure_resolves_fetchFailed (env : FetchEnv)
    (sig url : String) (hc : env.isCached url sig = false)
    (hf : env.getSignatureStatus sig = .error ()) :
    fetchTransactionStatus env sig url =
      [Action.fetchSignature url sig,
       Action.updateStatus url sig .FetchFailed none] ∧
    (∀ env2 : FetchEnv, ∀ sig2 url2 : String, ∃ fs i,
      fetchTransactionStatus env2 sig2 url2 =
        [Action.fetchSignature url2 sig2,
         Action.updateStatus url2 sig2 fs i]) := by
  constructor
  · simp [fetchTransactionStatus, resolveTransactionStatus, hc, hf]
  · intro env2 sig2 url2
    exact ⟨_, _, rfl⟩

/-- Closed instance of the C6 theorem on an environment whose status
query always throws. -/
theorem primary_failure_resolves_fetchFailed_witness :
    failEnv.isCached "http://a" "SIG1" = false ∧
    failEnv.getSignatureStatus "SIG1" = .error () ∧
    (fetchTransactionStatus failEnv "SIG1" "http://a" =
      [Action.fetchSignature "http://a" "SIG1",
       Action.updateStatus "http://a" "SIG1" .FetchFailed none] ∧
     (∀ env2 : FetchEnv, ∀ sig2 url2 : String, ∃ fs i,
       fetchTransactionStatus env2 sig2 url2 =
         [Action.fetchSignature url2 sig2,
          Action.updateStatus url2 sig2 fs i])) :=
  ⟨rfl, rfl,
    primary_failure_resolves_fetchFailed failEnv "SIG1" "http://a" rfl rfl⟩

/-! ### C7: a reported match populates info, degrading gracefully -/

/-- C7: for a non-cached signature whose status query reports a match,
the terminal dispatch is `Fetched` with an info whose `slot` is the
reported slot and whose `confirmations` is the reported count when
numeric and `"max"` otherwise; if the secondary block-time query for
that slot throws, `timestamp` is the sentinel `"unavailable"` while
the other fields are still populated. -/
theorem match_response_builds_info (env : FetchEnv) (sig url : String)
    (v : SignatureStatusValue) (hc : env.isCached url sig = false)
    (hv : env.getSignatureStatus sig = .ok (some v)) :
    ∃ info : TransactionStatusInfo,
      fetchTransactionStatus env sig url =
        [Action.fetchSignature url sig,
         Action.updateStatus url sig .Fetched (some info)] ∧
      info.slot = v.slot ∧
      info.confirmations =
        (match v.confirmations with
         | some n => Confirmations.count n
         | none => Confirmations.max) ∧
      (env.getBlockTime v.slot = .error () →
        info.timestamp = Timestamp.unavailable) := by
  refine ⟨⟨v.slot, ⟨v.err⟩,
    (match (match env.getBlockTime v.slot with
            | .ok bt => bt
            | .error _ => none) with
     | some t => Timestamp.time t
     | none => Timestamp.unavailable),
    (match v.confirmations with
     | some n => Confirmations.count n
     | none => Confirmations.max)⟩, ?_, rfl, rfl, ?_⟩
  · simp [fetchTransactionStatus, resolveTransactionStatus, hc, hv]
  · intro hbt
    simp only [hbt]

/-- Closed instance of the C7 theorem: slot 5, no numeric confirmation
count, block-time query throwing. -/
theorem match_response_builds_info_witness :
    matchEnv.isCached "http://a" "SIG1" = false ∧
    matchEnv.getSignatureStatus "SIG1" =
      .ok (some ⟨5, none, none⟩) ∧
    (∃ info : TransactionStatusInfo,
      fetchTransactionStatus matchEnv "SIG1" "http://a" =
        [Action.fetchSignature "http://a" "SIG1",
         Action.updateStatus "http://a" "SIG1" .Fetched (some info)] ∧
      info.slot = (⟨5, none, none⟩ : SignatureStatusValue).slot ∧
      info.confirmations =
        (match (⟨5, none, none⟩ : SignatureStatusValue).confirmations with
         | some n => Confirmations.count n
         | none => Confirmations.max) ∧
      (matchEnv.getBlockTime (⟨5, none, none⟩ : SignatureStatusValue).slot =
          .error () →
        info.timestamp = Timestamp.unavailable)) :=
  ⟨rfl, rfl,
    match_response_builds_info matchEnv "SIG1" "http://a" ⟨5, none, none⟩
      rfl rfl⟩

/-! ### C8: not-found resolves as a successful fetch -/

/-- C8: for a non-cached signature whose status query succeeds but
reports no matching transaction, the terminal dispatch is
`UpdateStatus` with `Fetched` and no info. -/
theorem not_found_resolves_as_fetched (env : FetchEnv) (sig url : String)
    (hc : env.isCached url sig = false)
    (hv : env.getSignatureStatus sig = .ok none) :
    fetchTransactionStatus env sig url =
      [Action.fetchSignature url sig,
       Action.updateStatus url sig .Fetched none] := by
  simp [fetchTransactionStatus, resolveTransactionStatus, hc, hv]

/-- Closed instance of the C8 theorem on an environment reporting no
match. -/
theorem not_found_resolves_as_fetched_witness :
    notFoundEnv.isCached "http://a" "SIG1" = false ∧
    notFoundEnv.getSignatureStatus "SIG1" = .ok none ∧
    fetchTransactionStatus notFoundEnv "SIG1" "http://a" =
      [Action.fetchSignature "http://a" "SIG1",
       Action.updateStatus "http://a" "SIG1" .Fetched none] :=
  ⟨rfl, rfl,
    not_found_resolves_as_fetched notFoundEnv "SIG1" "http://a" rfl rfl⟩

/-! ### C9: cached fixtures short-circuit the network -/

/-- C9: for a (url, signature) pair recognized by the fixture cache,
the fetch dispatches a terminal `UpdateStatus` with `Fetched` and the
cached info, and its outcome does not depend on the status or
block-time services at all. -/
theorem cached_fixture_short_circuits (env : FetchEnv) (sig url : String)
    (hc : env.isCached url sig = true) :
    fetchTransactionStatus env sig url =
      [Action.fetchSignature url sig,
       Action.updateStatus url sig .Fetched (env.cachedStatuses sig)] ∧
    (∀ gss : String → Except Unit (Option SignatureStatusValue),
     ∀ gbt : Nat → Except Unit (Option Int),
      fetchTransactionStatus
        { env with getSignatureStatus := gss, getBlockTime := gbt } sig url =
      fetchTransactionStatus env sig url) := by
  constructor
  · simp [fetchTransactionStatus, resolveTransactionStatus, hc]
  · intro gss gbt
    simp [fetchTransactionStatus, resolveTransactionStatus, hc]

/-- Closed instance of the C9 theorem on an environment recognizing
the pair as a fixture. -/
theorem cached_fixture_short_circuits_witness :
    cachedEnv.isCached "http://a" "SIG1" = true ∧
    (fetchTransactionStatus cachedEnv "SIG1" "http://a" =
      [Action.fetchSignature "http://a" "SIG1",
       Action.updateStatus "http://a" "SIG1" .Fetched
         (cachedEnv.cachedStatuses "SIG1")] ∧
    (∀ gss : String → Except Unit (Option SignatureStatusValue),
     ∀ gbt : Nat → Except Unit (Option Int),
      fetchTransactionStatus
        { cachedEnv with getSignatureStatus := gss, getBlockTime := gbt }
        "SIG1" "http://a" =
      fetchTransactionStatus cachedEnv "SIG1" "http://a")) :=
  ⟨rfl, cached_fixture_short_circuits cachedEnv "SIG1" "http://a" rfl⟩

end SolanaExplorer
